import Mathlib

/-!
Shallow embedding of the inverse-kinematics core of the robotic-arm
repository (`src/scene-manager.js`, class `IKSolver`), over the real
numbers, together with theorems settling the specification claims.

The JavaScript source computes with IEEE doubles; the embedding uses `ℝ`,
so every arithmetic identity below is exact.  `Math.atan2`, `Math.acos`,
`Math.sqrt` are modelled by `atan2` (defined below from the conventional
case split), `Real.arccos` and `Real.sqrt`.
-/

namespace RoboticArm

/-- Model of JavaScript `Math.atan2 y x` (note the argument order): the
conventional four-quadrant arctangent, with `atan2 0 0 = 0`. -/
noncomputable def atan2 (y x : ℝ) : ℝ :=
  if 0 < x then Real.arctan (y / x)
  else if x < 0 then
    (if 0 ≤ y then Real.arctan (y / x) + Real.pi else Real.arctan (y / x) - Real.pi)
  else if 0 < y then Real.pi / 2
  else if y < 0 then -(Real.pi / 2)
  else 0

/-- A target position `{x, y, z}` in world coordinates. -/
structure Target where
  x : ℝ
  y : ℝ
  z : ℝ

/-- Joint angles `{base, shoulder, elbow}` in radians. -/
structure JointAngles where
  base : ℝ
  shoulder : ℝ
  elbow : ℝ

/-- The object returned by `IKSolver.solve`: the joint angles plus the two
diagnostics `reachDistance` and `isAtLimit`. -/
structure SolveResult extends JointAngles where
  reachDistance : ℝ
  isAtLimit : Prop

/-- The constructor's `config` argument: each of the three geometry fields
may be absent. -/
structure IKConfig where
  baseHeight : Option ℝ
  lowerArmLength : Option ℝ
  upperArmLength : Option ℝ

/-- Model of the JavaScript idiom `config.field || d`: an absent field and
an (explicitly supplied) value `0` are both falsy, so both yield the
default `d`; any other number is returned unchanged. -/
noncomputable def orDefault (v : Option ℝ) (d : ℝ) : ℝ :=
  match v with
  | none => d
  | some x => if x = 0 then d else x

/-- The solver's immutable geometry: the three configured lengths and the
two derived workspace bounds (fields in the source constructor's order). -/
structure IKSolver where
  baseHeight : ℝ
  lowerArmLength : ℝ
  upperArmLength : ℝ
  maxReach : ℝ
  minReach : ℝ

/-- `new IKSolver(config)`: applies the `||` defaults `4`, `12`, `10` and
derives `maxReach = lower + upper`, `minReach = |lower − upper|`. -/
noncomputable def IKSolver.construct (config : IKConfig) : IKSolver :=
  let baseHeight := orDefault config.baseHeight 4
  let lowerArmLength := orDefault config.lowerArmLength 12
  let upperArmLength := orDefault config.upperArmLength 10
  ⟨baseHeight, lowerArmLength, upperArmLength,
    lowerArmLength + upperArmLength, |lowerArmLength - upperArmLength|⟩

/-- A solver with explicitly given lengths and the derived bounds; every
`IKSolver.construct` result is of this shape. -/
noncomputable def mkSolver (bH L U : ℝ) : IKSolver :=
  ⟨bH, L, U, L + U, |L - U|⟩

/-- The default-constructed solver (`baseHeight = 4`, `lowerArmLength = 12`,
`upperArmLength = 10`). -/
noncomputable def defaultSolver : IKSolver :=
  IKSolver.construct ⟨none, none, none⟩

namespace IKSolver

/-- `horizontalDistance = sqrt(x·x + z·z)` from `solve`. -/
noncomputable def horizontalDistance (t : Target) : ℝ :=
  Real.sqrt (t.x * t.x + t.z * t.z)

/-- `verticalDistance = y − baseHeight` from `solve`. -/
noncomputable def verticalDistance (s : IKSolver) (t : Target) : ℝ :=
  t.y - s.baseHeight

/-- `planarDistance = sqrt(horizontalDistance² + verticalDistance²)`. -/
noncomputable def planarDistance (s : IKSolver) (t : Target) : ℝ :=
  Real.sqrt (horizontalDistance t * horizontalDistance t +
    verticalDistance s t * verticalDistance s t)

/-- The `reachDistance` variable of `solve`: `planarDistance` run through
the two sequential clamping `if`s (upper side first, then lower side). -/
noncomputable def reachDistance (s : IKSolver) (t : Target) : ℝ :=
  let r0 := planarDistance s t
  let r1 := if r0 > s.maxReach * 0.999 then s.maxReach * 0.999 else r0
  if r1 < s.minReach + 0.01 then s.minReach + 0.01 else r1

/-- `cosElbowAngle` from `solve` (law of cosines, before clamping). -/
noncomputable def cosElbowAngle (s : IKSolver) (t : Target) : ℝ :=
  (reachDistance s t * reachDistance s t -
    s.lowerArmLength * s.lowerArmLength -
    s.upperArmLength * s.upperArmLength) /
  (-2 * s.lowerArmLength * s.upperArmLength)

/-- `clampedCosElbow = Math.max(-1, Math.min(1, cosElbowAngle))`. -/
noncomputable def clampedCosElbow (s : IKSolver) (t : Target) : ℝ :=
  max (-1) (min 1 (cosElbowAngle s t))

/-- `elbowAngleInternal = Math.acos(clampedCosElbow)`. -/
noncomputable def elbowAngleInternal (s : IKSolver) (t : Target) : ℝ :=
  Real.arccos (clampedCosElbow s t)

/-- `elbowAngle = π − elbowAngleInternal` (deviation from straight). -/
noncomputable def elbowAngle (s : IKSolver) (t : Target) : ℝ :=
  Real.pi - elbowAngleInternal s t

/-- `targetAngle = Math.atan2(verticalDistance, horizontalDistance)`. -/
noncomputable def targetAngle (s : IKSolver) (t : Target) : ℝ :=
  atan2 (verticalDistance s t) (horizontalDistance t)

/-- `cosShoulderOffset` from `solve` (law of cosines, before clamping). -/
noncomputable def cosShoulderOffset (s : IKSolver) (t : Target) : ℝ :=
  (s.lowerArmLength * s.lowerArmLength +
    reachDistance s t * reachDistance s t -
    s.upperArmLength * s.upperArmLength) /
  (2 * s.lowerArmLength * reachDistance s t)

/-- The clamped argument of the shoulder-offset `acos` call. -/
noncomputable def clampedCosShoulder (s : IKSolver) (t : Target) : ℝ :=
  max (-1) (min 1 (cosShoulderOffset s t))

/-- `shoulderOffset = Math.acos(Math.max(-1, Math.min(1, cosShoulderOffset)))`. -/
noncomputable def shoulderOffset (s : IKSolver) (t : Target) : ℝ :=
  Real.arccos (clampedCosShoulder s t)

/-- `shoulderAngle = π/2 − (targetAngle + shoulderOffset)`. -/
noncomputable def shoulderAngle (s : IKSolver) (t : Target) : ℝ :=
  Real.pi / 2 - (targetAngle s t + shoulderOffset s t)

/-- `IKSolver.solve(target)`: base yaw, the two planar angles and the two
diagnostics, assembled exactly as in the source's return statement. -/
noncomputable def solve (s : IKSolver) (t : Target) : SolveResult :=
  ⟨⟨atan2 t.x t.z, shoulderAngle s t, elbowAngle s t⟩,
    reachDistance s t,
    planarDistance s t > s.maxReach * 0.999⟩

/-- `IKSolver.forward(angles)`: forward kinematics as written in the
source, including its `totalAngle = shoulder + elbow − π`. -/
noncomputable def forward (s : IKSolver) (a : JointAngles) : Target :=
  let lowerX := s.lowerArmLength * Real.sin a.shoulder
  let lowerY := s.lowerArmLength * Real.cos a.shoulder
  let totalAngle := a.shoulder + a.elbow - Real.pi
  let upperX := s.upperArmLength * Real.sin totalAngle
  let upperY := s.upperArmLength * Real.cos totalAngle
  let planarX := lowerX + upperX
  let planarY := lowerY + upperY + s.baseHeight
  ⟨planarX * Real.sin a.base, planarY, planarX * Real.cos a.base⟩

/-- `IKSolver.isReachable(target)`: recomputes the unclamped planar
distance and compares it with both workspace bounds. -/
noncomputable def isReachable (s : IKSolver) (t : Target) : Prop :=
  let horizontal := Real.sqrt (t.x * t.x + t.z * t.z)
  let vertical := t.y - s.baseHeight
  let distance := Real.sqrt (horizontal * horizontal + vertical * vertical)
  s.minReach ≤ distance ∧ distance ≤ s.maxReach

end IKSolver

/-! ### Helper lemmas -/

lemma neg_one_le_clamp (c : ℝ) : -1 ≤ max (-1) (min 1 c) :=
  le_max_left _ _

lemma clamp_le_one (c : ℝ) : max (-1) (min 1 c) ≤ 1 :=
  max_le (by norm_num) (min_le_left _ _)

lemma planarDistance_eq (s : IKSolver) (t : Target) :
    s.planarDistance t = Real.sqrt (t.x ^ 2 + t.z ^ 2 + (t.y - s.baseHeight) ^ 2) := by
  unfold IKSolver.planarDistance IKSolver.horizontalDistance IKSolver.verticalDistance
  rw [Real.mul_self_sqrt (by nlinarith [mul_self_nonneg t.x, mul_self_nonneg t.z])]
  congr 1
  ring

lemma defaultSolver_def : defaultSolver = ⟨4, 12, 10, 22, 2⟩ := by
  unfold defaultSolver IKSolver.construct orDefault
  norm_num

/-! ### Claim C9 -/

/-- Claim C9: constructing from a config (with defaults `4`, `12`, `10` for
omitted fields) yields `maxReach = lowerArmLength + upperArmLength` and
`minReach = |lowerArmLength - upperArmLength|`; the default-constructed
solver carries exactly the five values `4, 12, 10, 22, 2`.  Solver
operations are pure functions of the solver value, so no operation can
change these fields. -/
theorem construct_invariants :
    (∀ c : IKConfig,
      (IKSolver.construct c).maxReach =
        (IKSolver.construct c).lowerArmLength + (IKSolver.construct c).upperArmLength ∧
      (IKSolver.construct c).minReach =
        |(IKSolver.construct c).lowerArmLength - (IKSolver.construct c).upperArmLength|) ∧
    defaultSolver.baseHeight = 4 ∧ defaultSolver.lowerArmLength = 12 ∧
    defaultSolver.upperArmLength = 10 ∧ defaultSolver.maxReach = 22 ∧
    defaultSolver.minReach = 2 := by
  refine ⟨fun c => ⟨rfl, rfl⟩, ?_, ?_, ?_, ?_, ?_⟩ <;> rw [defaultSolver_def]

/-! ### Claim C10 -/

/-- Claim C10: an explicitly supplied length `0` is falsy in the
constructor's `||` defaulting and is replaced by the default (`12` for the
lower arm), while a negative length is accepted unchanged. -/
theorem construct_falsy_default (x : ℝ) (hx : x < 0) :
    (IKSolver.construct ⟨none, some 0, none⟩).lowerArmLength = 12 ∧
    (IKSolver.construct ⟨none, some x, none⟩).lowerArmLength = x := by
  constructor
  · show orDefault (some 0) 12 = 12
    simp [orDefault]
  · show orDefault (some x) 12 = x
    simp only [orDefault]
    rw [if_neg hx.ne]

/-- Claim C10, witness: the defaulting theorem applied at length `-3`. -/
theorem construct_falsy_default_app :
    (-3 : ℝ) < 0 ∧
    (IKSolver.construct ⟨none, some (-3), none⟩).lowerArmLength = -3 :=
  ⟨by norm_num, (construct_falsy_default (-3) (by norm_num)).2⟩

/-! ### Claim C6 -/

/-- Claim C6: `isReachable` holds exactly when the unclamped planar
distance `sqrt(x² + z² + (y − baseHeight)²)` lies in
`[minReach, maxReach]`; in particular it is false strictly below
`minReach` and strictly above `maxReach`. -/
theorem isReachable_iff_planar_in_range (s : IKSolver) (t : Target) :
    s.isReachable t ↔
      (s.minReach ≤ Real.sqrt (t.x ^ 2 + t.z ^ 2 + (t.y - s.baseHeight) ^ 2) ∧
       Real.sqrt (t.x ^ 2 + t.z ^ 2 + (t.y - s.baseHeight) ^ 2) ≤ s.maxReach) := by
  rw [← planarDistance_eq]
  exact Iff.rfl

/-! ### Claim C7 -/

/-- Claim C7: `solve` always returns `base = atan2(x, z)`, and in the
degenerate azimuth case `x = z = 0` the base angle is `0` (a well-defined
real number, never an error value). -/
theorem solve_base_atan2 (s : IKSolver) (t : Target) :
    (s.solve t).base = atan2 t.x t.z ∧ ∀ y : ℝ, (s.solve ⟨0, y, 0⟩).base = 0 := by
  refine ⟨rfl, fun y => ?_⟩
  show atan2 0 0 = 0
  unfold atan2
  norm_num

/-! ### Claim C2 -/

/-- Claim C2: `solve` computes the planar distance
`sqrt(x² + z² + (y − baseHeight)²)` and returns as `reachDistance` that
distance clamped into `[minReach + 0.01, maxReach × 0.999]`; whenever the
geometry satisfies `minReach + 0.01 ≤ maxReach × 0.999`, the returned
`reachDistance` lies in that interval. -/
theorem solve_reachDistance_clamped (s : IKSolver) (t : Target)
    (h : s.minReach + 0.01 ≤ s.maxReach * 0.999) :
    s.planarDistance t = Real.sqrt (t.x ^ 2 + t.z ^ 2 + (t.y - s.baseHeight) ^ 2) ∧
    (s.solve t).reachDistance = s.reachDistance t ∧
    s.minReach + 0.01 ≤ (s.solve t).reachDistance ∧
    (s.solve t).reachDistance ≤ s.maxReach * 0.999 := by
  have hr : s.minReach + 0.01 ≤ s.reachDistance t ∧
      s.reachDistance t ≤ s.maxReach * 0.999 := by
    simp only [IKSolver.reachDistance]
    split_ifs with h1 h2 h3 <;> constructor <;> linarith
  exact ⟨planarDistance_eq s t, rfl, hr.1, hr.2⟩

/-- Claim C2, witness: the clamping theorem applied to the default
geometry at target `(0, 4, 20)`. -/
theorem solve_reachDistance_clamped_app :
    defaultSolver.minReach + 0.01 ≤ defaultSolver.maxReach * 0.999 ∧
    defaultSolver.minReach + 0.01 ≤ (defaultSolver.solve ⟨0, 4, 20⟩).reachDistance :=
  ⟨by rw [defaultSolver_def]; norm_num,
   (solve_reachDistance_clamped defaultSolver ⟨0, 4, 20⟩
      (by rw [defaultSolver_def]; norm_num)).2.2.1⟩

/-! ### Claim C3 -/

lemma planarDistance_axis (s : IKSolver) (y z : ℝ) (h : y = s.baseHeight) :
    s.planarDistance ⟨0, y, z⟩ = |z| := by
  rw [planarDistance_eq]
  simp only [h, sub_self]
  rw [show (0:ℝ) ^ 2 + z ^ 2 + 0 ^ 2 = z ^ 2 by ring, Real.sqrt_sq_eq_abs]

/-- Claim C3, counterexample: for the geometry with lengths `12` and
`0.005` (so `minReach = 11.995` and `maxReach × 0.999 = 11.992995`), the
target `(0, 4, 11.993)` has planar distance `11.993` strictly below
`minReach`, yet `solve` reports `isAtLimit`.  So under-reach can set the
flag, refuting the claim's second part as stated. -/
theorem isAtLimit_underreach_cex :
    (IKSolver.construct ⟨some 4, some 12, some 0.005⟩).planarDistance ⟨0, 4, 11.993⟩ <
      (IKSolver.construct ⟨some 4, some 12, some 0.005⟩).minReach ∧
    ((IKSolver.construct ⟨some 4, some 12, some 0.005⟩).solve ⟨0, 4, 11.993⟩).isAtLimit := by
  have hs : IKSolver.construct ⟨some 4, some 12, some 0.005⟩ =
      ⟨4, 12, 0.005, 12.005, 11.995⟩ := by
    norm_num [IKSolver.construct, orDefault]
  rw [hs]
  have hp : (⟨4, 12, 0.005, 12.005, 11.995⟩ : IKSolver).planarDistance ⟨0, 4, 11.993⟩ =
      11.993 := by
    rw [planarDistance_axis _ 4 11.993 rfl]
    norm_num
  constructor
  · rw [hp]; norm_num
  · show (⟨4, 12, 0.005, 12.005, 11.995⟩ : IKSolver).planarDistance ⟨0, 4, 11.993⟩ >
      (12.005 : ℝ) * 0.999
    rw [hp]; norm_num

/-- Claim C3, amended: for every geometry and target, `isAtLimit` holds
iff the unclamped planar distance exceeds `maxReach × 0.999`; and for
every geometry additionally satisfying `minReach ≤ maxReach × 0.999`
(true of any non-degenerate workspace, e.g. the defaults), a target whose
planar distance is below `minReach` never sets `isAtLimit`. -/
theorem isAtLimit_spec_amended (s : IKSolver) (t : Target)
    (h : s.minReach ≤ s.maxReach * 0.999) :
    ((s.solve t).isAtLimit ↔ s.planarDistance t > s.maxReach * 0.999) ∧
    (s.planarDistance t < s.minReach → ¬ (s.solve t).isAtLimit) := by
  refine ⟨Iff.rfl, fun hlt hat => ?_⟩
  have hgt : s.planarDistance t > s.maxReach * 0.999 := hat
  linarith

/-- Claim C3, witness: the amended theorem applied to the default geometry
at target `(0, 4, 20)`. -/
theorem isAtLimit_spec_amended_app :
    defaultSolver.minReach ≤ defaultSolver.maxReach * 0.999 ∧
    (defaultSolver.planarDistance ⟨0, 4, 20⟩ < defaultSolver.minReach →
      ¬ (defaultSolver.solve ⟨0, 4, 20⟩).isAtLimit) :=
  ⟨by rw [defaultSolver_def]; norm_num,
   (isAtLimit_spec_amended defaultSolver ⟨0, 4, 20⟩
      (by rw [defaultSolver_def]; norm_num)).2⟩

/-! ### Claim C8 -/

/-- Claim C8: for every geometry with strictly positive link lengths and
every target, both `acos` arguments of `solve` are clamped into `[-1, 1]`,
the clamped `reachDistance` stays strictly positive, and the resulting
elbow angle is a well-defined real in `[0, π]` — the real-valued model of
the source's NaN-freedom guarantee. -/
theorem solve_total_and_clamped (bH L U : ℝ) (hL : 0 < L) (hU : 0 < U) (t : Target) :
    (-1 ≤ (mkSolver bH L U).clampedCosElbow t ∧ (mkSolver bH L U).clampedCosElbow t ≤ 1) ∧
    (-1 ≤ (mkSolver bH L U).clampedCosShoulder t ∧
      (mkSolver bH L U).clampedCosShoulder t ≤ 1) ∧
    0 < (mkSolver bH L U).reachDistance t ∧
    ((mkSolver bH L U).solve t).reachDistance = (mkSolver bH L U).reachDistance t ∧
    0 ≤ ((mkSolver bH L U).solve t).elbow ∧ ((mkSolver bH L U).solve t).elbow ≤ Real.pi := by
  refine ⟨⟨neg_one_le_clamp _, clamp_le_one _⟩, ⟨neg_one_le_clamp _, clamp_le_one _⟩,
    ?_, rfl, ?_, ?_⟩
  · have habs : (0:ℝ) ≤ |L - U| := abs_nonneg _
    have hm : (mkSolver bH L U).minReach = |L - U| := rfl
    simp only [IKSolver.reachDistance, hm]
    split_ifs with h1 h2 h3 <;> linarith
  · show 0 ≤ Real.pi - Real.arccos ((mkSolver bH L U).clampedCosElbow t)
    have := Real.arccos_le_pi ((mkSolver bH L U).clampedCosElbow t)
    linarith
  · show Real.pi - Real.arccos ((mkSolver bH L U).clampedCosElbow t) ≤ Real.pi
    have := Real.arccos_nonneg ((mkSolver bH L U).clampedCosElbow t)
    linarith

/-- Claim C8, witness: the totality theorem applied to the default lengths
at target `(0, 4, 20)`. -/
theorem solve_total_and_clamped_app :
    (0:ℝ) < 12 ∧ (0:ℝ) < 10 ∧ 0 < (mkSolver 4 12 10).reachDistance ⟨0, 4, 20⟩ :=
  ⟨by norm_num, by norm_num,
   (solve_total_and_clamped 4 12 10 (by norm_num) (by norm_num) ⟨0, 4, 20⟩).2.2.1⟩

/-! ### Numeric bounds for inverse cosine -/

lemma arccos_le_of_bound {q t : ℝ} (hq : q ≤ 1) (ht0 : 0 < t) (ht1 : t ≤ 1)
    (hb : 1 - t ^ 2 / 2 + t ^ 4 * (5 / 96) ≤ q) : Real.arccos q ≤ t := by
  have habs : |t| ≤ 1 := by rw [abs_of_pos ht0]; exact ht1
  have hcb := Real.cos_bound habs
  rw [abs_le] at hcb
  have ht4 : |t| ^ 4 = t ^ 4 := by rw [abs_of_pos ht0]
  have hcos : Real.cos t ≤ q := by
    have h2 := hcb.2
    rw [ht4] at h2
    linarith
  have ht2 : t ^ 2 ≤ 1 := by nlinarith
  have ht4p : (0:ℝ) ≤ t ^ 4 := by positivity
  have hq1 : (-1 : ℝ) ≤ q := by linarith
  by_contra hlt
  push_neg at hlt
  have hcc := Real.cos_lt_cos_of_nonneg_of_le_pi ht0.le (Real.arccos_le_pi q) hlt
  rw [Real.cos_arccos hq1 hq] at hcc
  linarith

lemma planarDistance_vertical (s : IKSolver) (y : ℝ) :
    s.planarDistance ⟨0, y, 0⟩ = |y - s.baseHeight| := by
  rw [planarDistance_eq]
  show Real.sqrt ((0:ℝ) ^ 2 + (0:ℝ) ^ 2 + (y - s.baseHeight) ^ 2) = _
  rw [show (0:ℝ) ^ 2 + (0:ℝ) ^ 2 + (y - s.baseHeight) ^ 2 = (y - s.baseHeight) ^ 2 by ring,
    Real.sqrt_sq_eq_abs]

/-! ### Claim C4 -/

/-- Claim C4: for the default geometry and target `(0, 4, 22)` (planar
distance exactly `22 = maxReach`), `solve` clamps `reachDistance` to
`21.978 = maxReach × 0.999`, sets `isAtLimit`, and returns an elbow angle
in `[0, 0.1]` radians — the arm is within `0.1` rad of fully straight. -/
theorem solve_full_extension :
    defaultSolver.planarDistance ⟨0, 4, 22⟩ = 22 ∧
    (defaultSolver.solve ⟨0, 4, 22⟩).reachDistance = 21.978 ∧
    (defaultSolver.solve ⟨0, 4, 22⟩).isAtLimit ∧
    0 ≤ (defaultSolver.solve ⟨0, 4, 22⟩).elbow ∧
    (defaultSolver.solve ⟨0, 4, 22⟩).elbow ≤ 0.1 := by
  rw [defaultSolver_def]
  have hp : (⟨4, 12, 10, 22, 2⟩ : IKSolver).planarDistance ⟨0, 4, 22⟩ = 22 := by
    rw [planarDistance_axis _ 4 22 rfl]; norm_num
  have hr : (⟨4, 12, 10, 22, 2⟩ : IKSolver).reachDistance ⟨0, 4, 22⟩ = 21.978 := by
    simp only [IKSolver.reachDistance, hp]; norm_num
  have hc : (⟨4, 12, 10, 22, 2⟩ : IKSolver).cosElbowAngle ⟨0, 4, 22⟩ =
      -(239.032484 / 240) := by
    simp only [IKSolver.cosElbowAngle, hr]; norm_num
  have hcce : (⟨4, 12, 10, 22, 2⟩ : IKSolver).clampedCosElbow ⟨0, 4, 22⟩ =
      -(239.032484 / 240) := by
    simp only [IKSolver.clampedCosElbow, hc]
    rw [min_eq_right (by norm_num), max_eq_right (by norm_num)]
  have he : ((⟨4, 12, 10, 22, 2⟩ : IKSolver).solve ⟨0, 4, 22⟩).elbow =
      Real.arccos (239.032484 / 240) := by
    show (⟨4, 12, 10, 22, 2⟩ : IKSolver).elbowAngle ⟨0, 4, 22⟩ = _
    simp only [IKSolver.elbowAngle, IKSolver.elbowAngleInternal, hcce, Real.arccos_neg]
    ring
  refine ⟨hp, hr, ?_, ?_, ?_⟩
  · show (⟨4, 12, 10, 22, 2⟩ : IKSolver).planarDistance ⟨0, 4, 22⟩ > (22:ℝ) * 0.999
    rw [hp]; norm_num
  · rw [he]; exact Real.arccos_nonneg _
  · rw [he]
    exact arccos_le_of_bound (by norm_num) (by norm_num) (by norm_num) (by norm_num)

/-! ### Claim C5 -/

/-- Claim C5: for the default geometry and target `(0, 6, 0)` (vertical
distance `2`, horizontal distance `0`, planar distance `2 = minReach`),
`solve` returns `base = 0` (degenerate azimuth) and an elbow angle in
`[π − 0.05, π]` — the arm is within `0.05` rad of fully folded. -/
theorem solve_full_fold :
    defaultSolver.planarDistance ⟨0, 6, 0⟩ = 2 ∧
    (defaultSolver.solve ⟨0, 6, 0⟩).base = 0 ∧
    Real.pi - 0.05 ≤ (defaultSolver.solve ⟨0, 6, 0⟩).elbow ∧
    (defaultSolver.solve ⟨0, 6, 0⟩).elbow ≤ Real.pi := by
  rw [defaultSolver_def]
  have hp : (⟨4, 12, 10, 22, 2⟩ : IKSolver).planarDistance ⟨0, 6, 0⟩ = 2 := by
    rw [planarDistance_vertical]; norm_num
  have hr : (⟨4, 12, 10, 22, 2⟩ : IKSolver).reachDistance ⟨0, 6, 0⟩ = 2.01 := by
    simp only [IKSolver.reachDistance, hp]; norm_num
  have hc : (⟨4, 12, 10, 22, 2⟩ : IKSolver).cosElbowAngle ⟨0, 6, 0⟩ = 239.9599 / 240 := by
    simp only [IKSolver.cosElbowAngle, hr]; norm_num
  have hcce : (⟨4, 12, 10, 22, 2⟩ : IKSolver).clampedCosElbow ⟨0, 6, 0⟩ = 239.9599 / 240 := by
    simp only [IKSolver.clampedCosElbow, hc]
    rw [min_eq_right (by norm_num), max_eq_right (by norm_num)]
  have he : ((⟨4, 12, 10, 22, 2⟩ : IKSolver).solve ⟨0, 6, 0⟩).elbow =
      Real.pi - Real.arccos (239.9599 / 240) := by
    show (⟨4, 12, 10, 22, 2⟩ : IKSolver).elbowAngle ⟨0, 6, 0⟩ = _
    simp only [IKSolver.elbowAngle, IKSolver.elbowAngleInternal, hcce]
  refine ⟨hp, ?_, ?_, ?_⟩
  · show atan2 0 0 = 0
    unfold atan2
    norm_num
  · rw [he]
    have := arccos_le_of_bound (q := 239.9599 / 240) (t := 0.05)
      (by norm_num) (by norm_num) (by norm_num) (by norm_num)
    linarith
  · rw [he]
    have := Real.arccos_nonneg (239.9599 / 240)
    linarith

/-! ### Claim C1 -/

lemma forward_dist_sq (s : IKSolver) (a : JointAngles) :
    (s.forward a).x ^ 2 + (s.forward a).z ^ 2 + ((s.forward a).y - s.baseHeight) ^ 2 =
      s.lowerArmLength ^ 2 + s.upperArmLength ^ 2 +
        2 * s.lowerArmLength * s.upperArmLength * Real.cos (Real.pi - a.elbow) := by
  simp only [IKSolver.forward]
  have h1 := Real.sin_sq_add_cos_sq a.base
  have h2 := Real.sin_sq_add_cos_sq a.shoulder
  have h3 := Real.sin_sq_add_cos_sq (a.shoulder + a.elbow - Real.pi)
  have h4 := Real.cos_sub a.shoulder (a.shoulder + a.elbow - Real.pi)
  have h5 : a.shoulder - (a.shoulder + a.elbow - Real.pi) = Real.pi - a.elbow := by ring
  rw [h5] at h4
  linear_combination
    ((s.lowerArmLength * Real.sin a.shoulder +
        s.upperArmLength * Real.sin (a.shoulder + a.elbow - Real.pi)) ^ 2) * h1 +
      (s.lowerArmLength ^ 2) * h2 + (s.upperArmLength ^ 2) * h3 +
      (-2 * s.lowerArmLength * s.upperArmLength) * h4

/-- Claim C1 (code bug witness): the round-trip fails at the in-range
target `(0, 4, 20)` of the default geometry: `forward(solve(target))` is
not `(0, 4, 20)`.  The solve is exact (`reachDistance = 20`, no clamping),
but `forward` interprets `elbow` with the opposite convention
(`totalAngle = shoulder + elbow − π` instead of `shoulder + elbow`), so
the recomposed point lies at squared planar distance `88`, not `400`,
from the shoulder pivot. -/
theorem forward_solve_not_roundtrip :
    defaultSolver.forward (defaultSolver.solve ⟨0, 4, 20⟩).toJointAngles ≠ ⟨0, 4, 20⟩ := by
  rw [defaultSolver_def]
  intro hEq
  have hp : (⟨4, 12, 10, 22, 2⟩ : IKSolver).planarDistance ⟨0, 4, 20⟩ = 20 := by
    rw [planarDistance_axis _ 4 20 rfl]; norm_num
  have hr : (⟨4, 12, 10, 22, 2⟩ : IKSolver).reachDistance ⟨0, 4, 20⟩ = 20 := by
    simp only [IKSolver.reachDistance, hp]; norm_num
  have hc : (⟨4, 12, 10, 22, 2⟩ : IKSolver).cosElbowAngle ⟨0, 4, 20⟩ = -0.65 := by
    simp only [IKSolver.cosElbowAngle, hr]; norm_num
  have hcce : (⟨4, 12, 10, 22, 2⟩ : IKSolver).clampedCosElbow ⟨0, 4, 20⟩ = -0.65 := by
    simp only [IKSolver.clampedCosElbow, hc]
    rw [min_eq_right (by norm_num), max_eq_right (by norm_num)]
  have he : ((⟨4, 12, 10, 22, 2⟩ : IKSolver).solve ⟨0, 4, 20⟩).toJointAngles.elbow =
      Real.pi - Real.arccos (-0.65) := by
    show (⟨4, 12, 10, 22, 2⟩ : IKSolver).elbowAngle ⟨0, 4, 20⟩ = _
    simp only [IKSolver.elbowAngle, IKSolver.elbowAngleInternal, hcce]
  have hkey := forward_dist_sq (⟨4, 12, 10, 22, 2⟩ : IKSolver)
    ((⟨4, 12, 10, 22, 2⟩ : IKSolver).solve ⟨0, 4, 20⟩).toJointAngles
  rw [he, show Real.pi - (Real.pi - Real.arccos (-0.65)) = Real.arccos (-0.65) by ring,
    Real.cos_arccos (by norm_num) (by norm_num), hEq] at hkey
  norm_num at hkey

end RoboticArm
